import Mathlib

/-!
Shallow embedding of `application/streamer.py` (class `Streamer`) of the
CortexBCIStreamer repository.

Real-valued quantities (amplitudes, frequencies, timestamps) are modelled as
exact rationals (`Rat`); Python `int(...)` truncation is modelled by `pyInt`.
External collaborators (BrainFlow's `DataFilter.perform_bandpass` /
`perform_bandstop`, the board, the classifier) are out of scope and appear as
function parameters, so every theorem about the in-repo logic holds for any
behaviour of those collaborators.
-/

namespace CortexStreamer

/-- Python `int(x)` on a real value: truncation toward zero. -/
def pyInt (x : Rat) : Int :=
  if 0 ≤ x then ⌊x⌋ else -⌊-x⌋

/-! Timing arithmetic (`Streamer.__init__`, lines 78-85)

`self.off_time = (self.on_time * (self.nclasses - 1))`
`self.prediction_interval = int(self.on_time + self.off_time) * 2`
`self.prediction_datapoints = int(self.prediction_interval * self.sampling_rate / 1000)`

`on_time` and `nclasses` come from the config as integers, so the inner
`int(...)` is the identity and is modelled as such on `Int`. -/

def off_time (on_time nclasses : Int) : Int :=
  on_time * (nclasses - 1)

def prediction_interval (on_time nclasses : Int) : Int :=
  (on_time + off_time on_time nclasses) * 2

/-- The source computes `int(self.prediction_interval * self.sampling_rate / 1000)`: Python `/` is
exact division here (modelled over `Rat`), then `int` truncates. -/
def prediction_datapoints (on_time nclasses : Int) (sampling_rate : Nat) : Int :=
  pyInt ((prediction_interval on_time nclasses : Rat) * (sampling_rate : Rat) / 1000)

/-! Trigger state machine (`write_trigger`, `set_prediction_mode`)

The session state that `write_trigger` and `set_prediction_mode` read and
write: `nclasses` (immutable config), `prediction_mode`, `first_prediction`.
`__init__` sets `prediction_mode = False`, `first_prediction = True`. -/

structure SessState where
  nclasses : Int
  prediction_mode : Bool
  first_prediction : Bool
deriving DecidableEq, Repr

/-- The state right after `Streamer.__init__` with the default config
(`nclasses = 4`). -/
def initState : SessState :=
  { nclasses := 4, prediction_mode := false, first_prediction := true }

/-- A trigger value passed to `write_trigger`: either the empty string sent by
the GUI input box, or an integer marker value. -/
inductive Trig where
  | empty : Trig
  | val : Int → Trig
deriving DecidableEq, Repr

/-- Observable outcome of one `write_trigger` call: the new session state, the
marker inserted into the board stream (`board.insert_marker`), if any, and the
number of asynchronous prediction requests dispatched (`predict_class` calls). -/
structure WtOut where
  state : SessState
  inserted : Option Int
  predictions : Nat
deriving DecidableEq, Repr

/-- Embedding of `Streamer.write_trigger(trigger=1, timestamp=0)` (lines 403-420):
rejects only the empty string; resolves a local timestamp (which the rest of
the method never reads — `now` stands for `time.time()`); always inserts the
marker; while `prediction_mode` is on, a marker equal to `nclasses` dispatches
one prediction unless `first_prediction` is set, in which case it is consumed
and the flag cleared. -/
def write_trigger (s : SessState) (trigger : Trig) (timestamp now : Rat) : WtOut :=
  match trigger with
  | Trig.empty => ⟨s, none, 0⟩
  | Trig.val t =>
    let _ts : Rat := if timestamp = 0 then now else timestamp
    if s.prediction_mode then
      if t = s.nclasses ∧ s.first_prediction = false then
        ⟨s, some t, 1⟩
      else if t = s.nclasses ∧ s.first_prediction = true then
        ⟨{ s with first_prediction := false }, some t, 0⟩
      else
        ⟨s, some t, 0⟩
    else
      ⟨s, some t, 0⟩

/-- Embedding of `Streamer.set_prediction_mode` (lines 254-257): toggles the flag and
forwards it to the classifier; touches no other session field. -/
def set_prediction_mode (s : SessState) : SessState :=
  { s with prediction_mode := !s.prediction_mode }

/-- Per-marker prediction counts along a sequence of `write_trigger` calls
(timestamp argument left at its default `0`, `now` irrelevant by C10). -/
def runMarkers (s : SessState) : List Trig → List Nat
  | [] => []
  | t :: rest =>
    let o := write_trigger s t 0 0
    o.predictions :: runMarkers o.state rest

/-! Training timing (`set_train_start` lines 426-428, `train_classifier`
lines 430-438)

`training_length = end_training_time - self.start_training_time + 1`
`training_interval = int(training_length * self.sampling_rate)`
then `data = self.board.get_current_board_data(training_interval)`,
`self.filter_data_buffer(data)`, `self.classifier.train(data, ...)`. -/

def training_interval (t0 t1 : Rat) (sampling_rate : Nat) : Int :=
  pyInt ((t1 - t0 + 1) * (sampling_rate : Rat))

/-- Embedding of `train_classifier`, with the board and the in-place conditioning pipeline
abstracted: returns the number of samples requested from the board and the
snapshot handed to `classifier.train`. -/
def train_classifier (board : Int → List (List Rat))
    (conditioned : List (List Rat) → List (List Rat))
    (t0 t1 : Rat) (sampling_rate : Nat) : Int × List (List Rat) :=
  let ti := training_interval t0 t1 sampling_rate
  (ti, conditioned (board ti))

/-! Quality scoring (`get_channel_quality`, lines 487-497) -/

/-- Insertion of one element into a sorted list. -/
def insertR (x : Rat) : List Rat → List Rat
  | [] => [x]
  | y :: ys => if x ≤ y then x :: y :: ys else y :: insertR x ys

/-- Insertion sort, ascending. -/
def sortR : List Rat → List Rat
  | [] => []
  | x :: xs => insertR x (sortR xs)

/-- Embedding of `np.percentile(eeg, 75)` with numpy's default linear interpolation:
sort ascending, take position `0.75 * (n-1)`, interpolate linearly between
the two neighbouring order statistics. -/
def percentile75 (l : List Rat) : Rat :=
  let s := sortR l
  let n := s.length
  if n = 0 then 0
  else
    let pos : Rat := 3 * ((n : Rat) - 1) / 4
    let i : Nat := (⌊pos⌋).toNat
    let lo := s.getD i 0
    let hi := s.getD (i + 1) lo
    lo + (pos - (⌊pos⌋ : Rat)) * (hi - lo)

/-- One row of `self.quality_thresholds`: `(low, high, color_name, score)`. -/
structure QRow where
  low : Rat
  high : Rat
  color : String
  score : Rat
deriving DecidableEq, Repr

/-- The default `quality_thresholds` of `Streamer.__init__` (lines 46-47). -/
def defaultQualityThresholds : List QRow :=
  [⟨-100, -50, "yellow", 1/2⟩, ⟨-50, 50, "green", 1⟩, ⟨50, 100, "yellow", 1/2⟩]

/-- The scan loop of `get_channel_quality`: `color = 'red'`, `q_score = 0`,
then first row with `low <= amplitude <= high` wins (`break`). -/
def qualityScan (amplitude : Rat) : List QRow → String × Rat
  | [] => ("red", 0)
  | r :: rest =>
    if r.low ≤ amplitude ∧ amplitude ≤ r.high then (r.color, r.score)
    else qualityScan amplitude rest

/-- Embedding of `Streamer.get_channel_quality(eeg, threshold=75)`: the statistic is
`np.percentile(eeg, 75)` of the raw channel values, then the threshold-table
scan; returns `(color, amplitude, q_score)`. -/
def get_channel_quality (thresholds : List QRow) (eeg : List Rat) :
    String × Rat × Rat :=
  let amplitude := percentile75 eeg
  let cs := qualityScan amplitude thresholds
  (cs.1, amplitude, cs.2)

/-- Spec-side formalisation of §4.4 for the refinement claim C4: take the
first row of the ordered table whose inclusive range contains the amplitude,
falling back to `(red, 0)`. -/
def qualityLookupSpec (amplitude : Rat) (thresholds : List QRow) : String × Rat :=
  match thresholds.find? (fun r => decide (r.low ≤ amplitude ∧ amplitude ≤ r.high)) with
  | some r => (r.color, r.score)
  | none => ("red", 0)

/-! Signal conditioning (`filter_data_buffer` lines 499-511,
`apply_bandpass_filter` lines 513-529, `apply_notch_filter` lines 531-548)

BrainFlow's `DataFilter.perform_bandpass` / `perform_bandstop` are external;
they appear as parameters `bp`, `ns` of type
`Rat → Rat → Rat → List Rat → List Rat` (sampling rate, start frequency, stop
frequency, channel data). `DataFilter.detrend(ch, CONSTANT)` removes the
channel mean and is in scope. -/

/-- Embedding of `DataFilter.detrend(ch_data, DetrendOperations.CONSTANT.value)`:
subtract the mean from every sample. -/
def detrendConst (l : List Rat) : List Rat :=
  l.map (fun x => x - l.sum / (l.length : Rat))

/-- The validity checks and filter call of `apply_bandpass_filter` after the
initial detrend, operating on the already-detrended data `d`. -/
def bandpassAfterDetrend (bp : Rat → Rat → Rat → List Rat → List Rat)
    (sampling_rate : Rat) (d : List Rat) (start_freq stop_freq : Rat) : List Rat :=
  if start_freq ≥ stop_freq then d
  else if start_freq < 0 ∨ stop_freq < 0 then d
  else if start_freq > sampling_rate / 2 ∨ stop_freq > sampling_rate / 2 then d
  else bp sampling_rate start_freq stop_freq d

/-- Embedding of `Streamer.apply_bandpass_filter(ch_data, start_freq, stop_freq, ...)`:
the constant detrend is the first statement, before any validity check; on
`start >= stop`, a negative frequency, or a frequency above Nyquist the method
returns without calling `perform_bandpass` (but the detrend has already
mutated `ch_data` in place). -/
def apply_bandpass_filter (bp : Rat → Rat → Rat → List Rat → List Rat)
    (sampling_rate : Rat) (ch_data : List Rat) (start_freq stop_freq : Rat) :
    List Rat :=
  let ch1 := detrendConst ch_data
  bandpassAfterDetrend bp sampling_rate ch1 start_freq stop_freq

/-- The validation loop of `apply_notch_filter`: returns `false` as soon as a
frequency is negative or above Nyquist. -/
def notchFreqsValid (sampling_rate : Rat) : List Rat → Bool
  | [] => true
  | f :: rest =>
    if f < 0 then false
    else if f > sampling_rate / 2 then false
    else notchFreqsValid sampling_rate rest

/-- Embedding of `Streamer.apply_notch_filter(ch_data, freqs, bandwidth=2.0, ...)`: if every if every
frequency passes the checks, apply a band-stop of `freq ± 2` for each frequency
in order; otherwise return with the data untouched (no detrend here). -/
def apply_notch_filter (ns : Rat → Rat → Rat → List Rat → List Rat)
    (sampling_rate : Rat) (ch_data : List Rat) (freqs : List Rat) : List Rat :=
  if notchFreqsValid sampling_rate freqs then
    freqs.foldl (fun d f => ns sampling_rate (f - 2) (f + 2) d) ch_data
  else ch_data

/-- The live filter configuration `filter_data_buffer` reads from the GUI:
the two checkboxes and the frequency boxes. -/
structure FilterCfg where
  sampling_rate : Rat
  bandpassChecked : Bool
  bandLow : Rat
  bandHigh : Rat
  notchChecked : Bool
  notchFreqs : List Rat
deriving Repr

/-- The per-channel body of the loop in `filter_data_buffer` (lines 503-511):
bandpass stage only if its checkbox is checked, then notch stage only if its
checkbox is checked. -/
def filterChannel (bp ns : Rat → Rat → Rat → List Rat → List Rat)
    (cfg : FilterCfg) (ch_data : List Rat) : List Rat :=
  let ch1 :=
    if cfg.bandpassChecked then
      apply_bandpass_filter bp cfg.sampling_rate ch_data cfg.bandLow cfg.bandHigh
    else ch_data
  if cfg.notchChecked then
    apply_notch_filter ns cfg.sampling_rate ch1 cfg.notchFreqs
  else ch1

/-- Embedding of `Streamer.filter_data_buffer(data)`: apply `filterChannel` to every EEG
channel of the snapshot. -/
def filter_data_buffer (bp ns : Rat → Rat → Rat → List Rat → List Rat)
    (cfg : FilterCfg) (eeg : List (List Rat)) : List (List Rat) :=
  eeg.map (filterChannel bp ns cfg)

end CortexStreamer

namespace CortexStreamer

/-! Helper lemmas shared between claims. -/

lemma pyInt_eq_floor {x : Rat} (h : 0 ≤ x) : pyInt x = ⌊x⌋ := by
  simp [pyInt, h]

lemma write_trigger_on_first_false (ncl : Int) (ts now : Rat) :
    write_trigger ⟨ncl, true, false⟩ (Trig.val ncl) ts now
      = ⟨⟨ncl, true, false⟩, some ncl, 1⟩ := by
  simp [write_trigger]

lemma write_trigger_on_first_true (ncl : Int) (ts now : Rat) :
    write_trigger ⟨ncl, true, true⟩ (Trig.val ncl) ts now
      = ⟨⟨ncl, true, false⟩, some ncl, 0⟩ := by
  simp [write_trigger]

lemma write_trigger_off (ncl : Int) (fp : Bool) (t : Int) (ts now : Rat) :
    write_trigger ⟨ncl, false, fp⟩ (Trig.val t) ts now
      = ⟨⟨ncl, false, fp⟩, some t, 0⟩ := by
  simp [write_trigger]

lemma runMarkers_on_cleared (ncl : Int) (m : Nat) :
    runMarkers ⟨ncl, true, false⟩ (List.replicate m (Trig.val ncl))
      = List.replicate m 1 := by
  induction m with
  | zero => rfl
  | succ k ih =>
    simp [List.replicate_succ, runMarkers, write_trigger_on_first_false, ih]

lemma runMarkers_off (ncl : Int) (fp : Bool) (m : Nat) :
    runMarkers ⟨ncl, false, fp⟩ (List.replicate m (Trig.val ncl))
      = List.replicate m 0 := by
  induction m with
  | zero => rfl
  | succ k ih =>
    simp [List.replicate_succ, runMarkers, write_trigger_off, ih]

/-- C1: along a sequence of `n ≥ 1` markers of value `nclasses` fed to
`write_trigger` starting with `prediction_mode` on and `first_prediction`
set, the first marker dispatches no prediction (and clears the flag) and each
later one dispatches exactly one; with `prediction_mode` off, no marker of
value `nclasses` dispatches any prediction. -/
theorem skip_first_prediction_semantics (ncl : Int) (fp : Bool) (n : Nat)
    (h : 1 ≤ n) :
    runMarkers ⟨ncl, true, true⟩ (List.replicate n (Trig.val ncl))
      = 0 :: List.replicate (n - 1) 1 ∧
    runMarkers ⟨ncl, false, fp⟩ (List.replicate n (Trig.val ncl))
      = List.replicate n 0 := by
  refine ⟨?_, runMarkers_off ncl fp n⟩
  obtain ⟨m, rfl⟩ : ∃ m, n = m + 1 := ⟨n - 1, by omega⟩
  simp [List.replicate_succ, runMarkers, write_trigger_on_first_true,
    runMarkers_on_cleared]

/-- Witness for C1 at `nclasses = 4`, three markers. -/
theorem skip_first_prediction_semantics_witness :
    runMarkers ⟨4, true, true⟩ (List.replicate 3 (Trig.val 4))
      = 0 :: List.replicate 2 1 ∧
    runMarkers ⟨4, false, true⟩ (List.replicate 3 (Trig.val 4))
      = List.replicate 3 0 :=
  skip_first_prediction_semantics 4 true 3 (by decide)

end CortexStreamer

namespace CortexStreamer

/-- C2: the timing arithmetic of `__init__` matches the spec formulas — the
off time is `onTime * (nClasses - 1)`, the prediction interval is
`2 * (onTime + offTime)`, and the datapoint count is the floor of
`interval * samplingRate / 1000`; at the default config
`onTime = 250, nClasses = 4, fs = 250` these are `750`, `2000` and `500`. -/
theorem timing_arithmetic (on_t ncl : Int) (fs : Nat)
    (h1 : 0 ≤ on_t) (h2 : 1 ≤ ncl) :
    off_time on_t ncl = on_t * (ncl - 1) ∧
    prediction_interval on_t ncl = 2 * (on_t + off_time on_t ncl) ∧
    prediction_datapoints on_t ncl fs
      = ⌊(prediction_interval on_t ncl : Rat) * (fs : Rat) / 1000⌋ ∧
    off_time 250 4 = 750 ∧ prediction_interval 250 4 = 2000 ∧
    prediction_datapoints 250 4 250 = 500 := by
  have hoff : (0 : Int) ≤ off_time on_t ncl :=
    mul_nonneg h1 (by omega)
  have hint : (0 : Int) ≤ prediction_interval on_t ncl := by
    have h3 : (0 : Int) ≤ on_t + off_time on_t ncl := by omega
    calc (0 : Int) ≤ (on_t + off_time on_t ncl) * 2 := by nlinarith
      _ = prediction_interval on_t ncl := rfl
  have hintQ : (0 : Rat) ≤ (prediction_interval on_t ncl : Rat) := by
    exact_mod_cast hint
  refine ⟨rfl, by rw [prediction_interval]; ring, ?_, by decide, by decide, ?_⟩
  · apply pyInt_eq_floor
    apply div_nonneg _ (by norm_num)
    exact mul_nonneg hintQ (by positivity)
  · norm_num [prediction_datapoints, prediction_interval, off_time, pyInt]

end CortexStreamer

namespace CortexStreamer

/-- Witness for C2 at the default configuration. -/
theorem timing_arithmetic_witness :
    off_time 250 4 = 750 ∧ prediction_interval 250 4 = 2000 ∧
    prediction_datapoints 250 4 250 = 500 := by
  have h := timing_arithmetic 250 4 250 (by decide) (by decide)
  exact ⟨h.2.2.2.1, h.2.2.2.2.1, h.2.2.2.2.2⟩

/-- C3 counterexample: starting from the initial state, enable predicting,
consume one boundary marker (which clears `first_prediction`), disable and
re-enable predicting; this last transition turns the flag from off to on, yet
`first_prediction` is `false`, not `true` — `set_prediction_mode` performs no
reset. -/
theorem predicting_reenable_no_reset_counterexample :
    (set_prediction_mode
        ((write_trigger (set_prediction_mode initState)
            (Trig.val 4) 0 0).state)).prediction_mode = false ∧
    (set_prediction_mode (set_prediction_mode
        ((write_trigger (set_prediction_mode initState)
            (Trig.val 4) 0 0).state))).prediction_mode = true ∧
    (set_prediction_mode (set_prediction_mode
        ((write_trigger (set_prediction_mode initState)
            (Trig.val 4) 0 0).state))).first_prediction = false := by
  decide

/-- C3 amended: `set_prediction_mode` only toggles `prediction_mode`; it
leaves `first_prediction` (and `nclasses`) unchanged, so the flag is not reset
to `true` on re-entering prediction mode. -/
theorem set_prediction_mode_toggle_only (s : SessState) :
    (set_prediction_mode s).prediction_mode = !s.prediction_mode ∧
    (set_prediction_mode s).first_prediction = s.first_prediction ∧
    (set_prediction_mode s).nclasses = s.nclasses := by
  simp [set_prediction_mode]

/-- A lemma for C4: the break-on-first-match loop of `get_channel_quality`
agrees with the spec-side find-first description. -/
lemma qualityScan_eq_lookupSpec (amplitude : Rat) (thresholds : List QRow) :
    qualityScan amplitude thresholds = qualityLookupSpec amplitude thresholds := by
  induction thresholds with
  | nil => rfl
  | cons r rest ih =>
    by_cases h : r.low ≤ amplitude ∧ amplitude ≤ r.high
    · simp [qualityScan, qualityLookupSpec, List.find?, h]
    · simp only [qualityScan, qualityLookupSpec, List.find?_cons] at *
      simp [h, ih]

/-- C4: `get_channel_quality` scans the ordered threshold table and returns
the color and score of the first row whose inclusive range contains the
amplitude, with fallback `("red", 0)`; with the default table an amplitude of
`0` scores `("green", 1)`, `-75` scores `("yellow", 1/2)` and `500` falls back
to `("red", 0)`. -/
theorem quality_first_match_wins (thresholds : List QRow) (eeg : List Rat) :
    get_channel_quality thresholds eeg
      = ((qualityLookupSpec (percentile75 eeg) thresholds).1, percentile75 eeg,
         (qualityLookupSpec (percentile75 eeg) thresholds).2) ∧
    get_channel_quality defaultQualityThresholds [0] = ("green", 0, 1) ∧
    get_channel_quality defaultQualityThresholds [-75] = ("yellow", -75, 1/2) ∧
    get_channel_quality defaultQualityThresholds [500] = ("red", 500, 0) := by
  refine ⟨?_, ?_, ?_, ?_⟩
  · simp [get_channel_quality, qualityScan_eq_lookupSpec]
  · norm_num [get_channel_quality, percentile75, sortR, insertR, qualityScan,
      defaultQualityThresholds]
  · norm_num [get_channel_quality, percentile75, sortR, insertR, qualityScan,
      defaultQualityThresholds]
  · norm_num [get_channel_quality, percentile75, sortR, insertR, qualityScan,
      defaultQualityThresholds]

/-- C5 counterexample: on the channel `[-1]` the statistic that
`get_channel_quality` compares against the thresholds is `-1` (the raw 75th
percentile), not the 75th percentile of the absolute values, which is `1`. -/
theorem quality_statistic_not_absolute_counterexample :
    (get_channel_quality defaultQualityThresholds [-1]).2.1
      ≠ percentile75 (List.map (fun x => |x|) [-1]) := by
  norm_num [get_channel_quality, percentile75, sortR, insertR]

/-- C5 amended: the amplitude statistic of `get_channel_quality` is the 75th
percentile of the raw, signed channel values (`np.percentile(eeg, 75)` with no
absolute value); on `[-1]` it is the negative value `-1`. -/
theorem quality_statistic_raw_percentile (thresholds : List QRow)
    (eeg : List Rat) :
    (get_channel_quality thresholds eeg).2.1 = percentile75 eeg ∧
    (get_channel_quality defaultQualityThresholds [-1]).2.1 = -1 := by
  constructor
  · rfl
  · norm_num [get_channel_quality, percentile75, sortR, insertR]

end CortexStreamer

namespace CortexStreamer

/-- C6 counterexample: with the invalid pair `start_freq = stop_freq = 1`,
`apply_bandpass_filter` does not leave the channel `[0, 2]` equal to its
input — the unconditional constant detrend has already turned it into
`[-1, 1]` (shown here with a band-pass collaborator that changes nothing, so
the difference is due to the in-repo code alone). -/
theorem bandpass_invalid_not_untouched_counterexample :
    apply_bandpass_filter (fun _ _ _ l => l) 250 [0, 2] 1 1 ≠ [0, 2] := by
  norm_num [apply_bandpass_filter, bandpassAfterDetrend, detrendConst]

/-- C6 amended: on any invalid parameter pair (`start >= stop`, a negative
frequency, or a frequency above Nyquist) `apply_bandpass_filter` skips the
band-pass call, but the channel still comes back constant-detrended rather
than untouched, for every behaviour of the external band-pass routine. -/
theorem bandpass_invalid_skips_after_detrend
    (bp : Rat → Rat → Rat → List Rat → List Rat)
    (fs start_freq stop_freq : Rat) (ch_data : List Rat)
    (h : start_freq ≥ stop_freq ∨ start_freq < 0 ∨ stop_freq < 0 ∨
         start_freq > fs / 2 ∨ stop_freq > fs / 2) :
    apply_bandpass_filter bp fs ch_data start_freq stop_freq
      = detrendConst ch_data := by
  unfold apply_bandpass_filter bandpassAfterDetrend
  by_cases h1 : start_freq ≥ stop_freq
  · simp [h1]
  · by_cases h2 : start_freq < 0 ∨ stop_freq < 0
    · simp [h1, h2]
    · by_cases h3 : start_freq > fs / 2 ∨ stop_freq > fs / 2
      · simp [h1, h2, h3]
      · exact absurd h (by tauto)

/-- Witness for C6 amended: `start = stop = 1` on channel `[0, 2]`. -/
theorem bandpass_invalid_skips_after_detrend_witness :
    apply_bandpass_filter (fun _ _ _ l => l) 250 [0, 2] 1 1
      = detrendConst [0, 2] :=
  bandpass_invalid_skips_after_detrend (fun _ _ _ l => l) 250 1 1 [0, 2]
    (Or.inl (by norm_num))

/-- C7 counterexample: with both filter checkboxes off, `filter_data_buffer`
leaves the channel `[0, 2]` exactly as it was, while its detrended form is
`[-1, 1]` — so the constant detrend is not applied to every channel on every
snapshot; it only happens inside the band-pass stage. -/
theorem detrend_not_unconditional_counterexample :
    filter_data_buffer (fun _ _ _ l => l) (fun _ _ _ l => l)
      ⟨250, false, 1, 40, false, [50, 60]⟩ [[0, 2]] = [[0, 2]] ∧
    detrendConst [0, 2] ≠ [0, 2] := by
  constructor
  · simp [filter_data_buffer, filterChannel]
  · norm_num [detrendConst]

/-- C7 amended: the constant detrend runs exactly when the band-pass checkbox
is enabled — then it precedes the parameter checks (so it happens for invalid
parameters too, and independently of the notch stage) — and with the band-pass
checkbox disabled no detrending occurs at all: the notch stage, when enabled,
operates on the raw channel data, and with both stages disabled a channel
passes through `filterChannel` unchanged. -/
theorem detrend_iff_bandpass_enabled
    (bp ns : Rat → Rat → Rat → List Rat → List Rat)
    (fs low high : Rat) (nb : Bool) (nf : List Rat) (ch_data : List Rat) :
    filterChannel bp ns ⟨fs, true, low, high, nb, nf⟩ ch_data
      = (if nb then
           apply_notch_filter ns fs
             (bandpassAfterDetrend bp fs (detrendConst ch_data) low high) nf
         else bandpassAfterDetrend bp fs (detrendConst ch_data) low high) ∧
    filterChannel bp ns ⟨fs, false, low, high, nb, nf⟩ ch_data
      = (if nb then apply_notch_filter ns fs ch_data nf else ch_data) := by
  constructor
  · simp [filterChannel, apply_bandpass_filter]
  · cases nb <;> simp [filterChannel]

/-- C8: `train_classifier` asks the board for
`int((t1 - t0 + 1) * sampling_rate)` samples, which for a commit after the
start is the floor of `(t1 - t0 + 1) * fs`; the pulled snapshot is what is
handed (after conditioning) to `classifier.train`; a commit 5 seconds after
the start at `fs = 250` pulls `1500` samples. -/
theorem training_pull_length (t0 t1 : Rat) (fs : Nat)
    (board : Int → List (List Rat))
    (conditioned : List (List Rat) → List (List Rat))
    (h : t0 < t1) :
    (train_classifier board conditioned t0 t1 fs).1
      = ⌊(t1 - t0 + 1) * (fs : Rat)⌋ ∧
    (train_classifier board conditioned t0 t1 fs).2
      = conditioned (board (training_interval t0 t1 fs)) ∧
    training_interval 0 5 250 = 1500 := by
  refine ⟨?_, rfl, by norm_num [training_interval, pyInt]⟩
  show training_interval t0 t1 fs = _
  unfold training_interval
  apply pyInt_eq_floor
  have h1 : (0 : Rat) ≤ t1 - t0 + 1 := by linarith
  exact mul_nonneg h1 (by positivity)

/-- Witness for C8: `t0 = 0`, `t1 = 5`, `fs = 250`. -/
theorem training_pull_length_witness :
    (train_classifier (fun _ => []) id 0 5 250).1 = 1500 := by
  have h := training_pull_length 0 5 250 (fun _ => []) id (by norm_num)
  rw [h.1]
  norm_num

/-- C9 counterexample: a zero trigger value is not dropped — `write_trigger`
inserts the marker `0` into the board stream (from the initial state, with the
default timestamp). -/
theorem zero_trigger_inserted_counterexample :
    (write_trigger initState (Trig.val 0) 0 1).inserted = some 0 := by
  decide

/-- C9 amended: only the empty trigger value is rejected (no marker, no state
change, no prediction); a zero trigger is inserted into the board stream as
marker `0`, and it leaves the session state unchanged and dispatches nothing
as long as `nclasses ≠ 0`. -/
theorem empty_trigger_rejected (s : SessState) (ts now : Rat) :
    write_trigger s Trig.empty ts now = ⟨s, none, 0⟩ ∧
    (write_trigger s (Trig.val 0) ts now).inserted = some 0 ∧
    (s.nclasses ≠ 0 →
      (write_trigger s (Trig.val 0) ts now).state = s ∧
      (write_trigger s (Trig.val 0) ts now).predictions = 0) := by
  refine ⟨rfl, ?_, ?_⟩
  · by_cases hp : s.prediction_mode
    · by_cases hc1 : (0 : Int) = s.nclasses ∧ s.first_prediction = false
      · simp [write_trigger, hp, hc1]
      · by_cases hc2 : (0 : Int) = s.nclasses ∧ s.first_prediction = true
        · simp [write_trigger, hp, hc1, hc2]
        · simp [write_trigger, hp, hc1, hc2]
    · simp [write_trigger, hp]
  · intro hncl
    have hne : ¬((0 : Int) = s.nclasses) := fun hc => hncl hc.symm
    unfold write_trigger
    by_cases hp : s.prediction_mode <;> simp [hp, hne]

/-- Witness for C9 amended at the initial state (`nclasses = 4`). -/
theorem empty_trigger_rejected_witness :
    write_trigger initState Trig.empty 0 1 = ⟨initState, none, 0⟩ ∧
    (write_trigger initState (Trig.val 0) 0 1).state = initState := by
  have h := empty_trigger_rejected initState 0 1
  exact ⟨h.1, (h.2.2 (by decide)).1⟩

/-- C10: the `timestamp` argument of `write_trigger` is observationally
inert — the source resolves a local timestamp and never reads it again, so
any two timestamp arguments give the same inserted marker, the same
prediction-dispatch decision and the same session state. -/
theorem timestamp_has_no_effect (s : SessState) (trigger : Trig)
    (ts1 ts2 now : Rat) :
    write_trigger s trigger ts1 now = write_trigger s trigger ts2 now := by
  cases trigger <;> rfl

end CortexStreamer
